import Mathlib

/-!
Verification development for the TradeBot engine core.

Shallow embedding of the engine modules the specification describes:
  * `src/apps/engine/rules.py`      — fractional-quantity TIF coercion
  * `src/apps/engine/commands.py`   — command processor
  * `src/apps/engine/streams.py`    — trade-update consumer and auto-protect
  * `src/apps/engine/sync.py`       — debounced position synchronizer
  * `src/core/domain/commands.py`   — command data model
  * `src/core/domain/order.py`      — order data model and payload normalization
  * `src/adapters/storage/sqlalchemy_state_store.py` — fill dedup on record_fill

Python dict payloads are embedded as association lists of `PyVal`; Decimal
quantities as `Rat` (with a separate marker for values that cannot be
compared numerically, mirroring the `except` branch of `_is_fractional`);
fallible Python code returns `Except`.
-/

namespace TradeBot

/-- Embedded Python value as it occurs in the duck-typed payload dicts the
engine consumes.  `dt` stands for a datetime (modelled opaquely by a tick
count); `vlist` models a list payload value such as bracket legs, of which
the engine only ever consumes the truthiness (empty vs non-empty), so only
that bit is carried. -/
inductive PyVal where
  | none
  | str (s : String)
  | int (n : Int)
  | dec (q : Rat)
  | bool (b : Bool)
  | dt (ticks : Nat)
  | vlist (nonempty : Bool)
  deriving Repr, DecidableEq

/-- A Python dict with string keys, embedded as an association list (first
binding for a key wins, as only one binding per key is ever created). -/
def Dict := List (String × PyVal)

instance : DecidableEq Dict := by
  unfold Dict
  infer_instance

/-- `d.get(key)` — `PyVal.none` when the key is absent, like Python's
`dict.get` with its default of `None`. -/
def Dict.get (d : Dict) (key : String) : PyVal :=
  match d.find? (fun kv => kv.1 == key) with
  | Option.some kv => kv.2
  | Option.none => PyVal.none

/-- `d.get(key, default)` — the stored value when the key is present
(even when that value is `None`), else the default. -/
def Dict.getD (d : Dict) (key : String) (default : PyVal) : PyVal :=
  match d.find? (fun kv => kv.1 == key) with
  | Option.some kv => kv.2
  | Option.none => default

/-- `key in d`. -/
def Dict.hasKey (d : Dict) (key : String) : Bool :=
  d.any (fun kv => kv.1 == key)

/-- `d[key] = v` — overwrite in place when present, append when absent. -/
def Dict.set (d : Dict) (key : String) (v : PyVal) : Dict :=
  match d with
  | [] => [(key, v)]
  | kv :: rest =>
    if kv.1 == key then (key, v) :: rest
    else kv :: Dict.set rest key v

/-- Python truthiness of an embedded value. -/
def PyVal.truthy : PyVal → Bool
  | PyVal.none => false
  | PyVal.str s => s ≠ ""
  | PyVal.int n => n ≠ 0
  | PyVal.dec q => q ≠ 0
  | PyVal.bool b => b
  | PyVal.dt _ => true
  | PyVal.vlist nonempty => nonempty

/-- Python `a or b` over payload values. -/
def pyOr (a b : PyVal) : PyVal :=
  if a.truthy then a else b

/-- Python `str(v)`.  The engine only ever applies it to strings, `None`
and numeric ids; the rendering of the remaining constructors is fixed but
not relied on by any claim. -/
def PyVal.pyStr : PyVal → String
  | PyVal.none => "None"
  | PyVal.str s => s
  | PyVal.int n => toString n
  | PyVal.dec q => toString q.num ++ (if q.den == 1 then "" else "/" ++ toString q.den)
  | PyVal.bool b => if b then "True" else "False"
  | PyVal.dt n => toString n
  | PyVal.vlist nonempty => if nonempty then "[...]" else "[]"

/-- Numeric value of the characters of a plain digit run. -/
def digitsVal : List Char → Option Nat
  | [] => Option.none
  | cs => cs.foldl
      (fun acc c =>
        match acc with
        | Option.none => Option.none
        | Option.some n => if c.isDigit then Option.some (n * 10 + (c.toNat - '0'.toNat)) else Option.none)
      (Option.some 0)

/-- `Decimal(s)` on a plain numeral string: optional sign, digits, optional
fractional digits.  Exponent forms are not needed by any payload in scope;
anything else fails like `decimal.InvalidOperation`. -/
def parseDecimalString (s : String) : Option Rat :=
  let cs := s.toList
  let (neg, body) :=
    match cs with
    | '-' :: rest => (true, rest)
    | '+' :: rest => (false, rest)
    | rest => (false, rest)
  let intPart := body.takeWhile (fun c => c ≠ '.')
  let rest := body.dropWhile (fun c => c ≠ '.')
  let fracPart :=
    match rest with
    | '.' :: fs => Option.some fs
    | [] => Option.none
    | _ => Option.none
  match fracPart with
  | Option.none =>
    match digitsVal intPart with
    | Option.some n => Option.some (mkRat (if neg then -(n : Int) else (n : Int)) 1)
    | Option.none => Option.none
  | Option.some fs =>
    if intPart.isEmpty ∧ fs.isEmpty then Option.none
    else
      match digitsVal (intPart ++ fs) with
      | Option.some n =>
        Option.some (mkRat (if neg then -(n : Int) else (n : Int)) (10 ^ fs.length))
      | Option.none => Option.none

/-- `Decimal(str(v))` — the conversion the command processor applies to
payload quantities and trail percents.  `Option.none` models the raised
`decimal.InvalidOperation` (e.g. `Decimal("None")`). -/
def decimalOfPyVal : PyVal → Option Rat
  | PyVal.int n => Option.some (mkRat n 1)
  | PyVal.dec q => Option.some q
  | PyVal.str s => parseDecimalString s
  | _ => Option.none

/-- ASCII `str.lower()` (every enum/side/type text in scope is ASCII). -/
def asciiLower (s : String) : String :=
  String.mk (s.toList.map (fun c =>
    if 'A' ≤ c ∧ c ≤ 'Z' then Char.ofNat (c.toNat + 32) else c))

/-- ASCII `str.upper()`. -/
def asciiUpper (s : String) : String :=
  String.mk (s.toList.map (fun c =>
    if 'a' ≤ c ∧ c ≤ 'z' then Char.ofNat (c.toNat - 32) else c))

/-- The segment of a character list after its last `sep` (the whole list
when `sep` does not occur): `text.split(sep)[-1]`. -/
def lastSegment (sep : Char) (l : List Char) : List Char :=
  (l.reverse.takeWhile (fun c => c ≠ sep)).reverse

/-- `_normalize_enum_text` (`src/core/domain/order.py` lines 98-104, and the
identical helper in `src/apps/engine/streams.py` lines 45-51): embedded
payload values carry no `.value` attribute, so the function takes `str(value)`,
keeps only the segment after the last dot, and lowercases it. -/
def normalizeEnumText (value : PyVal) : String :=
  let text := value.pyStr
  let text :=
    if text.toList.any (fun c => c = '.') then
      String.mk (lastSegment '.' text.toList)
    else text
  asciiLower text

/-- `OrderSide` (`src/core/domain/order.py` lines 11-13). -/
inductive OrderSide where
  | buy
  | sell
  deriving Repr, DecidableEq

/-- The `str` value of an `OrderSide` member. -/
def OrderSide.value : OrderSide → String
  | OrderSide.buy => "buy"
  | OrderSide.sell => "sell"

/-- `TimeInForce` (`src/core/domain/order.py` lines 16-18). -/
inductive TimeInForce where
  | day
  | gtc
  deriving Repr, DecidableEq

/-- `TimeInForce(value)` lookup by enum value; `Option.none` models the
raised `ValueError`. -/
def TimeInForce.ofValue : String → Option TimeInForce
  | "day" => Option.some TimeInForce.day
  | "gtc" => Option.some TimeInForce.gtc
  | _ => Option.none

/-- A `Decimal` as seen by `_is_fractional`: either a finite numeric value
or a value that cannot be compared numerically (`NaN`/`Inf`, for which
`qty % 1` raises and the `except` branch runs). -/
inductive DecVal where
  | num (q : Rat)
  | nonnum
  deriving Repr, DecidableEq

/-- `_is_fractional` (`src/apps/engine/rules.py` lines 19-23): `qty % 1 != 0`
— for a finite decimal that is exactly "denominator ≠ 1" of the reduced
rational — and `True` via the `except` branch when the comparison raises. -/
def isFractional : DecVal → Bool
  | DecVal.num q => q.den ≠ 1
  | DecVal.nonnum => true

/-- `coerce_tif_for_fractional` (`src/apps/engine/rules.py` lines 12-16).
The `context` argument is only interpolated into the warning log line. -/
def coerceTifForFractional (qty : DecVal) (tif : TimeInForce) (context : String) : TimeInForce :=
  if isFractional qty ∧ tif = TimeInForce.gtc then TimeInForce.day
  else tif

/-- The spec-level notion "quantity has a non-zero fractional part": the
value is not an integer (a non-numeric quantity counts as fractional,
failing safe toward DAY). -/
def hasNonzeroFracPart : DecVal → Prop
  | DecVal.num q => ¬ ∃ n : ℤ, q = (n : Rat)
  | DecVal.nonnum => True

theorem den_eq_one_iff_int (q : Rat) : q.den = 1 ↔ ∃ n : ℤ, q = (n : Rat) := by
  constructor
  · intro h
    exact ⟨q.num, (Rat.den_eq_one_iff q).mp h |>.symm⟩
  · rintro ⟨n, rfl⟩
    exact Rat.den_intCast n

theorem isFractional_iff (d : DecVal) : isFractional d = true ↔ hasNonzeroFracPart d := by
  cases d with
  | num q =>
    simp only [isFractional, hasNonzeroFracPart, ← den_eq_one_iff_int]
    simp
  | nonnum =>
    simp [isFractional, hasNonzeroFracPart]

/-- `CommandType` exactly as `src/core/domain/commands.py` lines 11-14
declares it: `KILL_SWITCH`, `DRAFT_ORDER` and `CONFIRM_ORDER` are its only
members — the trailing-stop members referenced by `src/apps/engine/commands.py`
line 112, `src/apps/api/main.py` line 264 and the engine tests do not exist. -/
inductive CommandType where
  | kill_switch
  | draft_order
  | confirm_order
  deriving Repr, DecidableEq

/-- The `str` value of a `CommandType` member. -/
def CommandType.value : CommandType → String
  | CommandType.kill_switch => "kill_switch"
  | CommandType.draft_order => "draft_order"
  | CommandType.confirm_order => "confirm_order"

/-- `CommandType(value)` lookup by enum value; `Option.none` models the
`ValueError` Python raises for a string that is no member's value. -/
def CommandType.ofValue (s : String) : Option CommandType :=
  if s = "kill_switch" then Option.some CommandType.kill_switch
  else if s = "draft_order" then Option.some CommandType.draft_order
  else if s = "confirm_order" then Option.some CommandType.confirm_order
  else Option.none

/-- Attribute lookup `CommandType.<NAME>` on the enum class; `Option.none`
models the `AttributeError` Python raises for a missing member name. -/
def CommandType.memberNamed (s : String) : Option CommandType :=
  if s = "KILL_SWITCH" then Option.some CommandType.kill_switch
  else if s = "DRAFT_ORDER" then Option.some CommandType.draft_order
  else if s = "CONFIRM_ORDER" then Option.some CommandType.confirm_order
  else Option.none

/-- `Command` (`src/core/domain/commands.py` lines 17-22).  `created_at` is
an opaque timestamp. -/
structure Command where
  command_id : String
  type : CommandType
  profile_id : String
  payload : Dict
  created_at : Nat := 0
  deriving DecidableEq

/-- Modelled from the spec: `core/domain/position.py` is absent from the
provided sources (only its callers, the storage adapter and the tests
remain), so `Position` follows the spec's §3 data model.  Only `symbol` and
`quantity` are ever read by the engine code in scope; the remaining spec
fields are carried with defaults so they do not obscure the claims. -/
structure Position where
  symbol : String
  quantity : Rat
  side : String := "long"
  avg_entry_price : Rat := 0
  deriving DecidableEq

/-- `Order` (`src/core/domain/order.py` lines 21-42), restricted to the
fields the engine reads and writes; the timestamp and bracket-leg fields are
never consulted after construction by the code under proof and are omitted. -/
structure Order where
  order_id : String
  client_order_id : Option String := Option.none
  symbol : String
  side : String
  order_type : String
  time_in_force : Option String := Option.none
  status : Option String := Option.none
  qty : Option Rat := Option.none
  filled_qty : Option Rat := Option.none
  filled_avg_price : Option Rat := Option.none
  trail_percent : Option Rat := Option.none
  deriving DecidableEq

/-- `TrailingStopOrderRequest` (`src/core/domain/order.py` lines 84-95). -/
structure TrailingStopOrderRequest where
  symbol : String
  side : OrderSide
  qty : Rat
  trail_percent : Rat
  time_in_force : TimeInForce
  extended_hours : Bool := false
  client_order_id : Option String := Option.none
  deriving DecidableEq

/-- Pydantic validation of `TrailingStopOrderRequest` (`qty` and
`trail_percent` carry `Field(gt=0)`): constructing a request with a
non-positive quantity or trail percent raises a `ValidationError`,
modelled by `Option.none`. -/
def TrailingStopOrderRequest.validated (r : TrailingStopOrderRequest) :
    Option TrailingStopOrderRequest :=
  if 0 < r.qty ∧ 0 < r.trail_percent then Option.some r else Option.none

/-- A Python exception escaping the code under proof. -/
inductive PyErr where
  | invalidOperation
  | validationError
  | attributeError
  | storeError
  | brokerError
  deriving Repr, DecidableEq

/-- The engine settings fields consumed by the code in scope
(`src/core/settings.py` via the `Settings` object).
`engine_trailing_default_percent` is a Python float whose
`Decimal(str(...))` image is carried directly as a rational. -/
structure Settings where
  engine_profile_id : String
  engine_trailing_default_percent : Rat
  engine_trailing_buy_tif : String
  engine_trailing_sell_tif : String
  engine_auto_protect_enabled : Bool
  engine_auto_protect_order_types : List String
  deriving DecidableEq

/-- `_resolve_trailing_qty` (`src/apps/engine/commands.py` lines 18-39).
`cached` is the result of `store.list_positions` (the store call is modelled
as succeeding; its failure would escape `handle_command` to the command
loop's boundary, outside every claim in scope); `live` is the outcome of
`broker.get_positions`, whose exception the function catches itself. -/
def resolveTrailingQty (payload : Dict) (cached : List Position)
    (live : Except Unit (List Position)) : Except PyErr (Option Rat) :=
  let qty := payload.get "qty"
  if qty ≠ PyVal.none then
    match decimalOfPyVal qty with
    | Option.some q => Except.ok (Option.some q)
    | Option.none => Except.error PyErr.invalidOperation
  else
    let symbol := asciiUpper (payload.getD "symbol" (PyVal.str "")).pyStr
    if symbol = "" then Except.ok Option.none
    else
      match cached.find? (fun p => asciiUpper p.symbol == symbol) with
      | Option.some p => Except.ok (Option.some p.quantity)
      | Option.none =>
        match live with
        | Except.error _ => Except.ok Option.none
        | Except.ok ps =>
          match ps.find? (fun p => asciiUpper p.symbol == symbol) with
          | Option.some p => Except.ok (Option.some p.quantity)
          | Option.none => Except.ok Option.none

/-- `_normalize_trail_percent` (`src/apps/engine/commands.py` lines 42-45). -/
def normalizeTrailPercent (raw : PyVal) (defaultPercent : Rat) : Except PyErr Rat :=
  match raw with
  | PyVal.none => Except.ok defaultPercent
  | v =>
    match decimalOfPyVal v with
    | Option.some q => Except.ok q
    | Option.none => Except.error PyErr.invalidOperation

/-- `_build_trailing_order` (`src/apps/engine/commands.py` lines 48-97).
`uuidHex` stands in for `uuid4().hex`; `Except.ok Option.none` is the
logged reject path, `Except.error` an escaping exception. -/
def buildTrailingOrder (payload : Dict) (side : OrderSide) (settings : Settings)
    (cached : List Position) (live : Except Unit (List Position))
    (uuidHex : String) : Except PyErr (Option TrailingStopOrderRequest) :=
  let symbol := asciiUpper (payload.getD "symbol" (PyVal.str "")).pyStr
  match normalizeTrailPercent (payload.get "trail_percent") settings.engine_trailing_default_percent with
  | Except.error e => Except.error e
  | Except.ok trailPercent =>
    if symbol = "" ∨ trailPercent ≤ 0 then Except.ok Option.none
    else
      let qtyAndTif : Except PyErr (Option (Rat × TimeInForce)) :=
        match side with
        | OrderSide.buy =>
          let rawQty := payload.get "qty"
          if rawQty = PyVal.none then Except.ok Option.none
          else
            match decimalOfPyVal rawQty with
            | Option.none => Except.error PyErr.invalidOperation
            | Option.some qty =>
              match TimeInForce.ofValue settings.engine_trailing_buy_tif with
              | Option.none => Except.ok Option.none
              | Option.some tif => Except.ok (Option.some (qty, tif))
        | OrderSide.sell =>
          match resolveTrailingQty payload cached live with
          | Except.error e => Except.error e
          | Except.ok Option.none => Except.ok Option.none
          | Except.ok (Option.some qty) =>
            if qty ≤ 0 then Except.ok Option.none
            else
              match TimeInForce.ofValue settings.engine_trailing_sell_tif with
              | Option.none => Except.ok Option.none
              | Option.some tif => Except.ok (Option.some (qty, tif))
      match qtyAndTif with
      | Except.error e => Except.error e
      | Except.ok Option.none => Except.ok Option.none
      | Except.ok (Option.some (qty, tif)) =>
        let rawCid := payload.get "client_order_id"
        let clientOrderId :=
          if ¬ rawCid.truthy then
            "trail-" ++ side.value ++ "-" ++ String.mk (uuidHex.toList.take 12)
          else rawCid.pyStr
        let request : TrailingStopOrderRequest :=
          { symbol := symbol
            side := side
            qty := qty
            trail_percent := trailPercent
            time_in_force := tif
            extended_hours := false
            client_order_id := Option.some clientOrderId }
        match request.validated with
        | Option.some r => Except.ok (Option.some r)
        | Option.none => Except.error PyErr.validationError

/-- One call the command processor makes on its collaborators. -/
inductive EngineCall where
  | closeAllPositions (cancelOrders : Bool)
  | upsertPositions (profile_id : String) (positions : List Position)
  | submitTrailingStopOrder (request : TrailingStopOrderRequest)
  | upsertOrder (profile_id : String) (order : Order) (source : String)
  deriving DecidableEq

/-- `handle_command` (`src/apps/engine/commands.py` lines 100-127), returning
the ordered trace of Broker Client / State Store calls it makes.  The
collaborator calls themselves are modelled as succeeding; `submit` gives the
order the broker returns for a submitted request.  The second dispatch
(line 112) evaluates `CommandType.TRAILING_STOP_BUY` and
`CommandType.TRAILING_STOP_SELL`, member names the `CommandType` enum does
not declare, so for every command that reaches it the lookup is the
`AttributeError` branch. -/
def handleCommand (command : Command) (settings : Settings) (cached : List Position)
    (live : Except Unit (List Position)) (uuidHex : String)
    (submit : TrailingStopOrderRequest → Order) : Except PyErr (List EngineCall) :=
  let profileId := settings.engine_profile_id
  if command.profile_id ≠ profileId then Except.ok []
  else if command.type = CommandType.kill_switch then
    Except.ok [EngineCall.closeAllPositions true,
               EngineCall.upsertPositions profileId []]
  else
    match CommandType.memberNamed "TRAILING_STOP_BUY",
          CommandType.memberNamed "TRAILING_STOP_SELL" with
    | Option.some tsBuy, Option.some tsSell =>
      if command.type = tsBuy ∨ command.type = tsSell then
        let side := if command.type = tsBuy then OrderSide.buy else OrderSide.sell
        match buildTrailingOrder command.payload side settings cached live uuidHex with
        | Except.error e => Except.error e
        | Except.ok Option.none => Except.ok []
        | Except.ok (Option.some request) =>
          Except.ok [EngineCall.submitTrailingStopOrder request,
                     EngineCall.upsertOrder profileId (submit request) "ui"]
      else Except.ok []
    | _, _ => Except.error PyErr.attributeError

/-- `Fill` (`src/core/domain/order.py` lines 71-81).  Datetimes are opaque
tick counts. -/
structure Fill where
  order_id : String
  symbol : String
  side : String
  qty : Rat
  price : Option Rat := Option.none
  filled_at : Option Nat := Option.none
  deriving DecidableEq

/-- A row of the `fills` table (`src/adapters/storage/models.py` lines
60-71), restricted to the columns `record_fill` reads or writes. -/
structure FillRecord where
  profile_id : String
  broker_order_id : String
  symbol : String
  side : String
  qty : Rat
  price : Option Rat := Option.none
  filled_at : Option Nat := Option.none
  deriving DecidableEq

/-- The dedup predicate of `record_fill`
(`src/adapters/storage/sqlalchemy_state_store.py` lines 65-72): the row
matches on broker order id, quantity, price and fill time.  The query does
not filter on `profile_id`.  SQLAlchemy renders a comparison against a
Python `None` as `IS NULL`, which is exactly `Option` equality. -/
def fillMatches (f : Fill) (r : FillRecord) : Bool :=
  r.broker_order_id == f.order_id && r.qty == f.qty && r.price == f.price
    && r.filled_at == f.filled_at

/-- The row `_fill_to_record` builds
(`src/adapters/storage/sqlalchemy_state_store.py` lines 221-231). -/
def fillToRecord (profileId : String) (f : Fill) : FillRecord :=
  { profile_id := profileId
    broker_order_id := f.order_id
    symbol := f.symbol
    side := f.side
    qty := f.qty
    price := f.price
    filled_at := f.filled_at }

/-- `record_fill` (`src/adapters/storage/sqlalchemy_state_store.py` lines
63-77) acting on the `fills` table contents: return the table unchanged
when a matching row exists, else append the new row. -/
def recordFill (profileId : String) (f : Fill) (fills : List FillRecord) :
    List FillRecord :=
  if fills.any (fillMatches f) then fills
  else fills ++ [fillToRecord profileId f]

/-- Number of rows matching a fill's dedup tuple. -/
def countMatch (fills : List FillRecord) (f : Fill) : Nat :=
  (fills.filter (fillMatches f)).length

/-- `_order_type` (`src/apps/engine/streams.py` lines 54-56). -/
def orderTypeOf (payload : Dict) : String :=
  normalizeEnumText (pyOr (payload.get "order_type") (pyOr (payload.get "type") (PyVal.str "")))

/-- `_order_side` (`src/apps/engine/streams.py` lines 59-61). -/
def orderSideOf (payload : Dict) : String :=
  normalizeEnumText (pyOr (payload.get "side") (PyVal.str ""))

/-- `_has_bracket` (`src/apps/engine/streams.py` lines 64-68). -/
def hasBracket (payload : Dict) : Bool :=
  let orderClass := asciiLower (pyOr (payload.get "order_class") (PyVal.str "")).pyStr
  if orderClass = "bracket" ∨ orderClass = "oco" ∨ orderClass = "oto" then true
  else (pyOr (payload.get "legs")
         (pyOr (payload.get "stop_loss") (payload.get "take_profit"))).truthy

/-- `_resolve_position_qty` (`src/apps/engine/streams.py` lines 71-75),
applied to an already-fetched position list (the `broker.get_positions()`
call itself is modelled at the call site, because its exception is not
caught there). -/
def resolvePositionQty (positions : List Position) (symbol : String) : Option Rat :=
  (positions.find? (fun p => asciiUpper p.symbol == symbol)).map (fun p => p.quantity)

/-- `_parse_datetime` (`src/apps/engine/streams.py` lines 34-42).  A
datetime value parses to itself; ISO-string parsing is not needed by any
claim, so strings are modelled as unparseable, like every other non-datetime
value the function maps to `None`.  The function never raises. -/
def parseDatetime : PyVal → Option Nat
  | PyVal.dt n => Option.some n
  | _ => Option.none

/-- `_build_fill_from_order` (`src/apps/engine/streams.py` lines 78-99).
The `Decimal(str(...))` conversions of quantity and price can raise, and
this function's caller does not catch that. -/
def buildFillFromOrder (payload : Dict) : Except PyErr (Option Fill) :=
  let orderId := pyOr (payload.get "id") (payload.get "order_id")
  let symbol := payload.get "symbol"
  let side := normalizeEnumText (pyOr (payload.get "side") (PyVal.str ""))
  let qty := pyOr (payload.get "filled_qty")
               (pyOr (payload.get "filled_quantity") (payload.get "qty"))
  let price := pyOr (payload.get "filled_avg_price") (payload.get "avg_fill_price")
  let filledAt := pyOr (payload.get "filled_at")
                    (pyOr (payload.get "updated_at")
                      (pyOr (payload.get "timestamp") PyVal.none))
  if ¬ orderId.truthy ∨ ¬ symbol.truthy ∨ side = "" ∨ qty = PyVal.none then
    Except.ok Option.none
  else
    match decimalOfPyVal qty with
    | Option.none => Except.error PyErr.invalidOperation
    | Option.some q =>
      match (if price = PyVal.none then Except.ok Option.none
             else match decimalOfPyVal price with
                  | Option.some p => Except.ok (Option.some p)
                  | Option.none => Except.error PyErr.invalidOperation :
              Except PyErr (Option Rat)) with
      | Except.error e => Except.error e
      | Except.ok p =>
        Except.ok (Option.some
          { order_id := orderId.pyStr
            symbol := symbol.pyStr
            side := side
            qty := q
            price := p
            filled_at := parseDatetime filledAt })

/-- The State Store contents the stream consumer touches: protection links
as `(profile_id, entry_order_id, protection_order_id)`, the upsert-order log
as `(profile_id, order, source)`, and the `fills` table. -/
structure StoreState where
  links : List (String × String × String) := []
  orders : List (String × Order × String) := []
  fills : List FillRecord := []
  deriving DecidableEq

/-- State Store collaborator model: its contents plus, per call site in the
stream consumer, whether the call raises. -/
structure StoreModel where
  state : StoreState
  hasLinkFails : Bool := false
  upsertTradeUpdateOrderFails : Bool := false
  recordFillFails : Bool := false
  upsertProtectOrderFails : Bool := false
  createLinkFails : Bool := false

/-- Broker Client collaborator model for the stream consumer:
`get_positions` outcome and the trailing-stop submission behaviour. -/
structure BrokerModel where
  positions : Except Unit (List Position)
  submitFails : Bool := false
  submitResult : TrailingStopOrderRequest → Order

/-- `store.has_protection_link`
(`src/adapters/storage/sqlalchemy_state_store.py` lines 89-97) under the
store model: may raise, else answers whether a link row exists for the
profile and entry order id. -/
def hasProtectionLink (store : StoreModel) (profileId entryOrderId : String) :
    Except PyErr Bool :=
  if store.hasLinkFails then Except.error PyErr.storeError
  else Except.ok (store.state.links.any
    (fun l => l.1 == profileId && l.2.1 == entryOrderId))

/-- `_auto_protect_context` (`src/apps/engine/streams.py` lines 153-172):
`(order_id, symbol, skip_reason)`.  The `store.has_protection_link` call is
not inside any `try`, so its exception escapes. -/
def autoProtectContext (payload : Dict) (settings : Settings) (store : StoreModel) :
    Except PyErr (Option String × Option String × Option String) :=
  let orderId := pyOr (payload.get "id") (payload.get "order_id")
  let symbol := asciiUpper (pyOr (payload.get "symbol") (PyVal.str "")).pyStr
  if ¬ orderId.truthy ∨ symbol = "" then
    Except.ok (Option.none, Option.none, Option.some "missing_order_fields")
  else
    let orderType := orderTypeOf payload
    if orderSideOf payload ≠ "buy" then
      Except.ok (Option.some orderId.pyStr, Option.some symbol, Option.some "non_buy_order")
    else if ¬ (settings.engine_auto_protect_order_types.contains orderType) then
      Except.ok (Option.some orderId.pyStr, Option.some symbol,
                 Option.some ("order_type=" ++ orderType))
    else if hasBracket payload then
      Except.ok (Option.some orderId.pyStr, Option.some symbol, Option.some "bracket_or_legs")
    else
      match hasProtectionLink store settings.engine_profile_id orderId.pyStr with
      | Except.error e => Except.error e
      | Except.ok true =>
        Except.ok (Option.some orderId.pyStr, Option.some symbol, Option.some "already_linked")
      | Except.ok false =>
        Except.ok (Option.some orderId.pyStr, Option.some symbol, Option.none)

/-- `_auto_protect_on_fill` (`src/apps/engine/streams.py` lines 102-150),
returning the submitted requests and the resulting store contents.  Only
the `submit_trailing_stop_order` call sits inside a `try` (lines 142-146);
the broker position query, the link check, and the post-submit
`upsert_order`/`create_protection_link` calls do not, so their exceptions
escape. -/
def autoProtectOnFill (payload : Dict) (settings : Settings) (broker : BrokerModel)
    (store : StoreModel) : Except PyErr (List TrailingStopOrderRequest × StoreState) :=
  if ¬ settings.engine_auto_protect_enabled then Except.ok ([], store.state)
  else
    match autoProtectContext payload settings store with
    | Except.error e => Except.error e
    | Except.ok (_, _, Option.some _) => Except.ok ([], store.state)
    | Except.ok (Option.some orderId, Option.some symbol, Option.none) =>
      match broker.positions with
      | Except.error _ => Except.error PyErr.brokerError
      | Except.ok ps =>
        match resolvePositionQty ps symbol with
        | Option.none => Except.ok ([], store.state)
        | Option.some qty =>
          if qty ≤ 0 then Except.ok ([], store.state)
          else
            match TimeInForce.ofValue settings.engine_trailing_sell_tif with
            | Option.none => Except.ok ([], store.state)
            | Option.some tifRaw =>
              let tif := coerceTifForFractional (DecVal.num qty) tifRaw "auto_protect"
              let clientOrderId := "auto-protect-" ++ String.mk (orderId.toList.take 20)
              let request : TrailingStopOrderRequest :=
                { symbol := symbol
                  side := OrderSide.sell
                  qty := qty
                  trail_percent := settings.engine_trailing_default_percent
                  time_in_force := tif
                  extended_hours := false
                  client_order_id := Option.some clientOrderId }
              match request.validated with
              | Option.none => Except.error PyErr.validationError
              | Option.some req =>
                if broker.submitFails then Except.ok ([req], store.state)
                else
                  let protectionOrder := broker.submitResult req
                  if store.upsertProtectOrderFails then Except.error PyErr.storeError
                  else if store.createLinkFails then Except.error PyErr.storeError
                  else
                    Except.ok ([req],
                      { store.state with
                        orders := store.state.orders
                          ++ [(settings.engine_profile_id, protectionOrder, "auto_protect")]
                        links := store.state.links
                          ++ [(settings.engine_profile_id, orderId, protectionOrder.order_id)] })
    | Except.ok (_, _, Option.none) => Except.ok ([], store.state)

/-- The event-name normalization of `process_trade_update` line 182:
`str(event).lower() if event else ""`. -/
def eventNameOf : Option String → String
  | Option.none => ""
  | Option.some s => if s = "" then "" else asciiLower s

/-- `process_trade_update` (`src/apps/engine/streams.py` lines 175-206).
`persistOutcome` is the result of the `Order.from_alpaca` +
`store.upsert_order` block: `.ok o` when it upserts order `o`, `.error`
when either call raises — both inside the `try` of lines 188-192, so the
outcome never alters control flow.  `_build_fill_from_order` (line 195) and
`_auto_protect_on_fill` (line 201) run outside any `try`. -/
def processTradeUpdate (ev : Option String) (orderPayload : Option Dict)
    (settings : Settings) (broker : BrokerModel) (store : StoreModel)
    (persistOutcome : Except Unit Order) :
    Except PyErr (List TrailingStopOrderRequest × StoreState) :=
  let eventName := eventNameOf ev
  let payload : Dict :=
    match orderPayload with
    | Option.none => []
    | Option.some d => d
  match payload with
  | [] => Except.ok ([], store.state)
  | _ =>
    let state1 :=
      match persistOutcome, store.upsertTradeUpdateOrderFails with
      | Except.ok o, false =>
        { store.state with
          orders := store.state.orders ++ [(settings.engine_profile_id, o, "trade_update")] }
      | _, _ => store.state
    if eventName = "fill" then
      match buildFillFromOrder payload with
      | Except.error e => Except.error e
      | Except.ok fill =>
        let state2 :=
          match fill, store.recordFillFails with
          | Option.some f, false =>
            { state1 with fills := recordFill settings.engine_profile_id f state1.fills }
          | _, _ => state1
        autoProtectOnFill payload settings broker { store with state := state2 }
    else Except.ok ([], state1)

/-- One iteration of the position-sync cooldown logic
(`src/apps/engine/sync.py` lines 36-47) on the monotonic-clock timeline:
`lastSyncAt` is the value recorded after the previous successful sync
(line 47), `wake` the `time.monotonic()` reading of line 36, and the
returned time is when the broker fetch of line 45 begins — after sleeping
the remaining cooldown when less than `minInterval` has elapsed. -/
def syncCooldown (minInterval lastSyncAt wake : Rat) : Rat :=
  if 0 < minInterval ∧ wake - lastSyncAt < minInterval then
    minInterval - (wake - lastSyncAt)
  else 0

/-- The time the broker fetch of a sync iteration starts. -/
def syncFetchStart (minInterval lastSyncAt wake : Rat) : Rat :=
  wake + syncCooldown minInterval lastSyncAt wake

/-- The `time.monotonic()` value recorded as `last_sync_at` after the sync's
broker fetch and store write complete (`src/apps/engine/sync.py` line 47),
given the two calls' (non-negative) durations. -/
def syncFinish (minInterval lastSyncAt wake fetchDur writeDur : Rat) : Rat :=
  syncFetchStart minInterval lastSyncAt wake + fetchDur + writeDur

/-- The dict-mutation phase of `Order.from_alpaca`
(`src/core/domain/order.py` lines 50-66): for a dict argument `raw` is the
argument itself (`raw = order`, no copy), and these statements run on it in
place before `model_validate`; the caller's dict afterwards holds this
function's result. -/
def fromAlpacaMutate (raw : Dict) : Dict :=
  let raw :=
    if ¬ raw.hasKey "order_id" ∧ raw.hasKey "id" then
      raw.set "order_id" (PyVal.str (raw.get "id").pyStr)
    else raw
  let raw :=
    if ¬ raw.hasKey "order_type" ∧ raw.hasKey "type" then
      raw.set "order_type" (raw.get "type")
    else raw
  let raw :=
    if ¬ raw.hasKey "quantity" ∧ raw.hasKey "qty" then
      raw.set "quantity" (raw.get "qty")
    else raw
  let raw :=
    if raw.hasKey "side" then
      raw.set "side" (PyVal.str (normalizeEnumText (raw.get "side")))
    else raw
  let raw :=
    if raw.hasKey "order_type" then
      raw.set "order_type" (PyVal.str (normalizeEnumText (raw.get "order_type")))
    else raw
  let raw :=
    if raw.hasKey "time_in_force" ∧ raw.get "time_in_force" ≠ PyVal.none then
      raw.set "time_in_force" (PyVal.str (normalizeEnumText (raw.get "time_in_force")))
    else raw
  raw

/-! Claim theorems for the specification, one per claim, each with its
witness where the statement carries hypotheses. -/

/-- C6: for every quantity and time-in-force, `coerce_tif_for_fractional`
returns DAY when the quantity has a non-zero fractional part (or cannot be
compared numerically) and the TIF is GTC, and returns the TIF unchanged in
every other case.  The function is total by construction (the `except`
branch of `_is_fractional` is the `nonnum` case) and never raises. -/
theorem coerce_tif_for_fractional_spec (q : DecVal) (tif : TimeInForce) (context : String) :
    (hasNonzeroFracPart q → tif = TimeInForce.gtc →
      coerceTifForFractional q tif context = TimeInForce.day) ∧
    (¬ (hasNonzeroFracPart q ∧ tif = TimeInForce.gtc) →
      coerceTifForFractional q tif context = tif) := by
  constructor
  · intro hf hg
    have hb : isFractional q = true := (isFractional_iff q).mpr hf
    simp [coerceTifForFractional, hb, hg]
  · intro h
    rw [coerceTifForFractional, if_neg]
    intro hc
    exact h ⟨(isFractional_iff q).mp hc.1, hc.2⟩

/-- Witness for C6 at concrete inputs: 3/2 and a non-numeric quantity under
GTC coerce to DAY; an integral quantity under GTC and a fractional quantity
under DAY pass through unchanged. -/
theorem coerce_tif_for_fractional_spec_witness :
    coerceTifForFractional (DecVal.num (mkRat 3 2)) TimeInForce.gtc "cmd" = TimeInForce.day ∧
    coerceTifForFractional DecVal.nonnum TimeInForce.gtc "cmd" = TimeInForce.day ∧
    coerceTifForFractional (DecVal.num (mkRat 10 1)) TimeInForce.gtc "cmd" = TimeInForce.gtc ∧
    coerceTifForFractional (DecVal.num (mkRat 3 2)) TimeInForce.day "cmd" = TimeInForce.day := by
  refine ⟨?_, ?_, ?_, ?_⟩
  · exact (coerce_tif_for_fractional_spec _ _ _).1 ((isFractional_iff _).mp (by decide)) rfl
  · exact (coerce_tif_for_fractional_spec _ _ _).1 trivial rfl
  · exact (coerce_tif_for_fractional_spec _ _ _).2
      (fun hc => absurd ((isFractional_iff _).mpr hc.1) (by decide))
  · exact (coerce_tif_for_fractional_spec _ _ _).2 (fun hc => by cases hc.2)

/-- C1 (code observation): the `CommandType` enum declared in
`src/core/domain/commands.py` has no `trailing_stop_buy` /
`trailing_stop_sell` values and no `TRAILING_STOP_BUY` /
`TRAILING_STOP_SELL` member names, so the TRAILING_STOP_BUY command of the
claim cannot be constructed (`CommandType("trailing_stop_buy")` raises
`ValueError`) and the dispatch at `src/apps/engine/commands.py` line 112
raises `AttributeError` when evaluated — the claimed buy-side submission
path is unreachable. -/
theorem commandType_has_no_trailing_stop_members :
    CommandType.ofValue "trailing_stop_buy" = Option.none ∧
    CommandType.ofValue "trailing_stop_sell" = Option.none ∧
    CommandType.memberNamed "TRAILING_STOP_BUY" = Option.none ∧
    CommandType.memberNamed "TRAILING_STOP_SELL" = Option.none ∧
    (∀ t : CommandType, (t.value == "trailing_stop_buy") = false) ∧
    (∀ (command : Command) (settings : Settings)
      (cached : List Position) (live : Except Unit (List Position))
      (uuidHex : String) (submit : TrailingStopOrderRequest → Order),
      command.profile_id = settings.engine_profile_id →
      command.type ≠ CommandType.kill_switch →
      handleCommand command settings cached live uuidHex submit =
        Except.error PyErr.attributeError) := by
  refine ⟨rfl, rfl, rfl, rfl, ?_, ?_⟩
  · intro t; cases t <;> rfl
  · intro command settings cached live uuidHex submit hprofile htype
    simp only [handleCommand]
    rw [if_neg (by simp [hprofile]), if_neg htype]
    rfl

/-- Witness for C1's `handleCommand` conjunct: a DRAFT_ORDER command for the
configured profile — any command that reaches the second dispatch — ends in
the `AttributeError` of the missing trailing-stop members. -/
theorem commandType_has_no_trailing_stop_members_witness :
    handleCommand
      { command_id := "c-2", type := CommandType.draft_order,
        profile_id := "default", payload := [] }
      { engine_profile_id := "default", engine_trailing_default_percent := mkRat 2 1,
        engine_trailing_buy_tif := "day", engine_trailing_sell_tif := "gtc",
        engine_auto_protect_enabled := true, engine_auto_protect_order_types := ["market"] }
      [] (Except.ok []) "0123456789abcdef"
      (fun r =>
        { order_id := "order-1", symbol := r.symbol, side := r.side.value,
          order_type := "trailing_stop" }) =
      Except.error PyErr.attributeError :=
  commandType_has_no_trailing_stop_members.2.2.2.2.2 _ _ _ _ _ _ rfl (by decide)

/-- C3: a KILL_SWITCH command for the configured profile makes exactly one
`CloseAllPositions(cancelOrders=True)` call followed by exactly one
`UpsertPositions(profile, [])` call, and a KILL_SWITCH command for any
other profile makes zero Broker Client and State Store calls
(`src/apps/engine/commands.py` lines 100-110). -/
theorem handle_command_kill_switch_calls (command : Command) (settings : Settings)
    (cached : List Position) (live : Except Unit (List Position)) (uuidHex : String)
    (submit : TrailingStopOrderRequest → Order)
    (htype : command.type = CommandType.kill_switch) :
    (command.profile_id = settings.engine_profile_id →
      handleCommand command settings cached live uuidHex submit =
        Except.ok [EngineCall.closeAllPositions true,
                   EngineCall.upsertPositions settings.engine_profile_id []]) ∧
    (command.profile_id ≠ settings.engine_profile_id →
      handleCommand command settings cached live uuidHex submit = Except.ok []) := by
  constructor
  · intro hp
    simp only [handleCommand]
    rw [if_neg (by simp [hp]), if_pos htype]
  · intro hp
    simp only [handleCommand]
    rw [if_pos hp]

/-- Witness for C3: a concrete KILL_SWITCH command handled for the
configured profile produces exactly the close-then-replace trace, and the
same command against an engine configured for another profile produces the
empty trace. -/
theorem handle_command_kill_switch_calls_witness :
    handleCommand
      { command_id := "c-1", type := CommandType.kill_switch,
        profile_id := "default", payload := [("reason", PyVal.str "risk")] }
      { engine_profile_id := "default", engine_trailing_default_percent := mkRat 2 1,
        engine_trailing_buy_tif := "day", engine_trailing_sell_tif := "gtc",
        engine_auto_protect_enabled := true, engine_auto_protect_order_types := ["market"] }
      [] (Except.ok []) "0123456789abcdef"
      (fun r =>
        { order_id := "order-1", symbol := r.symbol, side := r.side.value,
          order_type := "trailing_stop" }) =
      Except.ok [EngineCall.closeAllPositions true,
                 EngineCall.upsertPositions "default" []] ∧
    handleCommand
      { command_id := "c-1", type := CommandType.kill_switch,
        profile_id := "other", payload := [("reason", PyVal.str "risk")] }
      { engine_profile_id := "default", engine_trailing_default_percent := mkRat 2 1,
        engine_trailing_buy_tif := "day", engine_trailing_sell_tif := "gtc",
        engine_auto_protect_enabled := true, engine_auto_protect_order_types := ["market"] }
      [] (Except.ok []) "0123456789abcdef"
      (fun r =>
        { order_id := "order-1", symbol := r.symbol, side := r.side.value,
          order_type := "trailing_stop" }) =
      Except.ok [] :=
  ⟨(handle_command_kill_switch_calls _ _ _ _ _ _ rfl).1 rfl,
   (handle_command_kill_switch_calls _ _ _ _ _ _ rfl).2 (by decide)⟩

/-- The trailing-stop-sell payload of C5's failing input: no `qty`, symbol
AAPL, trail percent from configuration. -/
def c5Payload : Dict := [("symbol", PyVal.str "AAPL")]

/-- C5's configuration: sell TIF configured as GTC, default trail 2%. -/
def gtcSettings : Settings :=
  { engine_profile_id := "default", engine_trailing_default_percent := mkRat 2 1,
    engine_trailing_buy_tif := "day", engine_trailing_sell_tif := "gtc",
    engine_auto_protect_enabled := true, engine_auto_protect_order_types := ["market"] }

/-- The cached position list of C5's failing input: 1.5 shares of AAPL. -/
def c5Cached : List Position := [{ symbol := "AAPL", quantity := mkRat 3 2 }]

/-- The request `_build_trailing_order` produces for C5's failing input. -/
def c5Request : TrailingStopOrderRequest :=
  { symbol := "AAPL", side := OrderSide.sell, qty := mkRat 3 2,
    trail_percent := mkRat 2 1, time_in_force := TimeInForce.gtc,
    extended_hours := false,
    client_order_id := Option.some "trail-sell-0123456789ab" }

/-- C5 (code observation): for a trailing-stop-sell whose resolved quantity
is the fractional 1.5 and whose configured sell TIF is GTC,
`_build_trailing_order` (`src/apps/engine/commands.py` lines 74-97) builds
and hands over a request still carrying GTC — it never calls
`coerce_tif_for_fractional`, which maps this quantity and TIF to DAY
(`src/apps/engine/rules.py` lines 12-16), as the repo's own test
`test_handle_command_trailing_stop_sell_fractional_forces_day_tif`
expects. -/
theorem build_trailing_order_fractional_sell_keeps_gtc :
    buildTrailingOrder c5Payload OrderSide.sell gtcSettings c5Cached
        (Except.ok []) "0123456789abcdef" =
      Except.ok (Option.some c5Request) ∧
    c5Request.time_in_force = TimeInForce.gtc ∧
    isFractional (DecVal.num c5Request.qty) = true ∧
    coerceTifForFractional (DecVal.num c5Request.qty) TimeInForce.gtc
        "trailing_stop" = TimeInForce.day := by
  refine ⟨by rfl, rfl, by decide, by decide⟩

/-- The dict payload of C10's exhibit, as an Alpaca-style order mapping. -/
def c10Input : Dict :=
  [("id", PyVal.str "abc123"), ("symbol", PyVal.str "AAPL"),
   ("side", PyVal.str "OrderSide.BUY"), ("type", PyVal.str "MARKET"),
   ("qty", PyVal.str "10"), ("time_in_force", PyVal.str "TimeInForce.GTC")]

/-- C10: `Order.from_alpaca` mutates a dict argument in place
(`raw = order` at `src/core/domain/order.py` line 51 aliases the caller's
dict, and lines 55-66 write to it): on this input it inserts the
`order_id`, `order_type` and `quantity` keys and overwrites `side`,
`order_type` and `time_in_force` with lowercase-normalized text, so the
caller's dict afterwards differs from its value before the call. -/
theorem from_alpaca_mutates_dict_argument :
    fromAlpacaMutate c10Input ≠ c10Input ∧
    c10Input.hasKey "order_id" = false ∧
    (fromAlpacaMutate c10Input).hasKey "order_id" = true ∧
    (fromAlpacaMutate c10Input).get "order_id" = PyVal.str "abc123" ∧
    c10Input.hasKey "quantity" = false ∧
    (fromAlpacaMutate c10Input).hasKey "quantity" = true ∧
    c10Input.hasKey "order_type" = false ∧
    (fromAlpacaMutate c10Input).get "order_type" = PyVal.str "market" ∧
    c10Input.get "side" = PyVal.str "OrderSide.BUY" ∧
    (fromAlpacaMutate c10Input).get "side" = PyVal.str "buy" ∧
    c10Input.get "time_in_force" = PyVal.str "TimeInForce.GTC" ∧
    (fromAlpacaMutate c10Input).get "time_in_force" = PyVal.str "gtc" := by
  decide

/-- C7: a trailing-stop-sell built with no `qty` in the payload resolves
its quantity from the cached position list when a position for the symbol
is present there, otherwise from the live broker query; and when the
resolution yields nothing or a non-positive quantity, `_build_trailing_order`
builds no request (`Except.ok Option.none`), so `handle_command` lines
121-123 never reach the submit call. -/
theorem resolve_trailing_qty_resolution (payload : Dict) (cached ps : List Position)
    (live : Except Unit (List Position)) (symbol : String)
    (hq : payload.get "qty" = PyVal.none)
    (hsym : asciiUpper (payload.getD "symbol" (PyVal.str "")).pyStr = symbol)
    (hsymne : symbol ≠ "") :
    (∀ pos : Position,
      cached.find? (fun p => asciiUpper p.symbol == symbol) = Option.some pos →
      resolveTrailingQty payload cached live = Except.ok (Option.some pos.quantity)) ∧
    (∀ pos : Position,
      cached.find? (fun p => asciiUpper p.symbol == symbol) = Option.none →
      live = Except.ok ps →
      ps.find? (fun p => asciiUpper p.symbol == symbol) = Option.some pos →
      resolveTrailingQty payload cached live = Except.ok (Option.some pos.quantity)) ∧
    (∀ (settings : Settings) (uuidHex : String) (qopt : Option Rat) (tp : Rat),
      resolveTrailingQty payload cached live = Except.ok qopt →
      (qopt = Option.none ∨ ∃ q, qopt = Option.some q ∧ q ≤ 0) →
      normalizeTrailPercent (payload.get "trail_percent")
          settings.engine_trailing_default_percent = Except.ok tp →
      buildTrailingOrder payload OrderSide.sell settings cached live uuidHex =
        Except.ok Option.none) := by
  refine ⟨?_, ?_, ?_⟩
  · intro pos hfound
    simp [resolveTrailingQty, hq, hsym, hsymne, hfound]
  · intro pos hmiss hlive hfound
    simp [resolveTrailingQty, hq, hsym, hsymne, hmiss, hlive, hfound]
  · intro settings uuidHex qopt tp hres hbad htp
    simp only [buildTrailingOrder, htp, hsym]
    by_cases hcase : symbol = "" ∨ tp ≤ 0
    · rw [if_pos hcase]
    · rw [if_neg hcase]
      rcases hbad with hnone | ⟨q, hsome, hle⟩
      · subst hnone
        simp [hres]
      · subst hsome
        simp [hres, hle]

/-- Witness for C7's three branches at concrete inputs: a cached AAPL
position of 2 resolves from the cache; with an empty cache a live AAPL
position of 3 resolves from the broker; and a cached quantity of 0 leads to
no request being built. -/
theorem resolve_trailing_qty_resolution_witness :
    resolveTrailingQty [("symbol", PyVal.str "aapl")]
        [{ symbol := "AAPL", quantity := mkRat 2 1 }] (Except.ok []) =
      Except.ok (Option.some (mkRat 2 1)) ∧
    resolveTrailingQty [("symbol", PyVal.str "aapl")] []
        (Except.ok [{ symbol := "AAPL", quantity := mkRat 3 1 }]) =
      Except.ok (Option.some (mkRat 3 1)) ∧
    buildTrailingOrder [("symbol", PyVal.str "aapl")] OrderSide.sell gtcSettings
        [{ symbol := "AAPL", quantity := mkRat 0 1 }] (Except.ok [])
        "0123456789abcdef" =
      Except.ok Option.none := by
  refine ⟨?_, ?_, ?_⟩
  · exact (resolve_trailing_qty_resolution [("symbol", PyVal.str "aapl")]
      [{ symbol := "AAPL", quantity := mkRat 2 1 }] [] (Except.ok []) "AAPL"
      rfl rfl (by decide)).1
      { symbol := "AAPL", quantity := mkRat 2 1 } (by decide)
  · exact (resolve_trailing_qty_resolution [("symbol", PyVal.str "aapl")] []
      [{ symbol := "AAPL", quantity := mkRat 3 1 }]
      (Except.ok [{ symbol := "AAPL", quantity := mkRat 3 1 }]) "AAPL"
      rfl rfl (by decide)).2.1
      { symbol := "AAPL", quantity := mkRat 3 1 } (by decide) rfl (by decide)
  · exact (resolve_trailing_qty_resolution [("symbol", PyVal.str "aapl")]
      [{ symbol := "AAPL", quantity := mkRat 0 1 }] [] (Except.ok []) "AAPL"
      rfl rfl (by decide)).2.2
      gtcSettings "0123456789abcdef" (Option.some (mkRat 0 1)) (mkRat 2 1)
      (by rfl) (Or.inr ⟨mkRat 0 1, rfl, by decide⟩) rfl

theorem fillMatches_toRecord (p : String) (f : Fill) :
    fillMatches f (fillToRecord p f) = true := by
  simp [fillMatches, fillToRecord]

/-- C8: one loop iteration of `_sync_positions_loop` with
`min_interval_seconds > 0` starts its broker fetch no earlier than
`min_interval_seconds` after the previous successful sync completed —
when the wake-up (e.g. a second refresh-signal firing) comes sooner, the
iteration first sleeps exactly the remaining cooldown — so consecutive
successful syncs (broker fetch plus store write) are never separated by
less than `min_interval_seconds` (`src/apps/engine/sync.py` lines 36-47). -/
theorem sync_min_interval_spacing (minInterval lastFinish wake fetchDur writeDur : Rat)
    (hmin : 0 < minInterval) :
    lastFinish + minInterval ≤ syncFetchStart minInterval lastFinish wake ∧
    (wake - lastFinish < minInterval →
      syncFetchStart minInterval lastFinish wake =
        wake + (minInterval - (wake - lastFinish))) ∧
    (0 ≤ fetchDur → 0 ≤ writeDur →
      lastFinish + minInterval ≤
        syncFinish minInterval lastFinish wake fetchDur writeDur) := by
  have key : lastFinish + minInterval ≤ syncFetchStart minInterval lastFinish wake := by
    unfold syncFetchStart syncCooldown
    by_cases h : wake - lastFinish < minInterval
    · rw [if_pos ⟨hmin, h⟩]
      linarith
    · rw [if_neg (fun hc => h hc.2)]
      push_neg at h
      linarith
  refine ⟨key, ?_, ?_⟩
  · intro h
    unfold syncFetchStart syncCooldown
    rw [if_pos ⟨hmin, h⟩]
  · intro h1 h2
    unfold syncFinish
    linarith

/-- Witness for C8: previous sync finished at 100, `min_interval = 30`, and
the refresh signal wakes the loop again at 110 — within the cooldown — so
the fetch starts at 110 + (30 - 10) = 130, thirty time-units after the
previous sync. -/
theorem sync_min_interval_spacing_witness :
    (100 : Rat) + 30 ≤ syncFetchStart 30 100 110 ∧
    syncFetchStart (30 : Rat) 100 110 = 110 + (30 - (110 - 100)) ∧
    (100 : Rat) + 30 ≤ syncFinish 30 100 110 1 1 := by
  have h := sync_min_interval_spacing 30 100 110 1 1 (by norm_num)
  exact ⟨h.1, h.2.1 (by norm_num), h.2.2 (by norm_num) (by norm_num)⟩

/-- C9: `record_fill` is idempotent on the fill identity tuple
(order id, quantity, price, fill time): a second call with the same tuple
changes nothing (and after recording into a table with no prior match
exactly one matching row is stored), while a fill differing in any tuple
component (and not already present) is appended as a new row
(`src/adapters/storage/sqlalchemy_state_store.py` lines 63-77). -/
theorem record_fill_dedup (p1 p2 : String) (f g : Fill) (fills : List FillRecord) :
    (g.order_id = f.order_id → g.qty = f.qty → g.price = f.price →
      g.filled_at = f.filled_at →
      recordFill p2 g (recordFill p1 f fills) = recordFill p1 f fills) ∧
    (fills.any (fillMatches f) = false →
      countMatch (recordFill p1 f fills) f = 1) ∧
    ((f.order_id ≠ g.order_id ∨ f.qty ≠ g.qty ∨ f.price ≠ g.price ∨
        f.filled_at ≠ g.filled_at) →
      fills.any (fillMatches g) = false →
      recordFill p2 g (recordFill p1 f fills) =
        recordFill p1 f fills ++ [fillToRecord p2 g]) := by
  refine ⟨?_, ?_, ?_⟩
  · intro h1 h2 h3 h4
    have hfg : fillMatches g = fillMatches f := by
      funext r
      simp [fillMatches, h1, h2, h3, h4]
    by_cases hany : fills.any (fillMatches f) = true
    · simp [recordFill, hfg, hany]
    · simp only [Bool.not_eq_true] at hany
      simp [recordFill, hfg, hany, List.any_append, fillMatches_toRecord]
  · intro hany
    have hnil : fills.filter (fillMatches f) = [] := by
      rw [List.filter_eq_nil_iff]
      intro a ha
      simpa using List.any_eq_false.mp hany a ha
    simp [recordFill, hany, countMatch, List.filter_append, hnil,
      fillMatches_toRecord]
  · intro hdiff hanyg
    have hne : fillMatches g (fillToRecord p1 f) = false := by
      simp only [fillMatches, fillToRecord]
      rcases hdiff with h | h | h | h <;> simp [h]
    by_cases hanyf : fills.any (fillMatches f) = true
    · simp [recordFill, hanyf, hanyg]
    · simp only [Bool.not_eq_true] at hanyf
      simp [recordFill, hanyf, hanyg, List.any_append, hne]

/-- Witness for C9 at concrete fills: recording the same fill twice into an
empty table stores exactly one row and the second call changes nothing,
while a fill differing only in price is appended as a second row. -/
theorem record_fill_dedup_witness :
    recordFill "default"
        { order_id := "order-1", symbol := "AAPL", side := "buy",
          qty := mkRat 2 1, price := Option.some (mkRat 203 2),
          filled_at := Option.some 1700 }
        (recordFill "default"
          { order_id := "order-1", symbol := "AAPL", side := "buy",
            qty := mkRat 2 1, price := Option.some (mkRat 203 2),
            filled_at := Option.some 1700 } []) =
      recordFill "default"
        { order_id := "order-1", symbol := "AAPL", side := "buy",
          qty := mkRat 2 1, price := Option.some (mkRat 203 2),
          filled_at := Option.some 1700 } [] ∧
    countMatch
        (recordFill "default"
          { order_id := "order-1", symbol := "AAPL", side := "buy",
            qty := mkRat 2 1, price := Option.some (mkRat 203 2),
            filled_at := Option.some 1700 } [])
        { order_id := "order-1", symbol := "AAPL", side := "buy",
          qty := mkRat 2 1, price := Option.some (mkRat 203 2),
          filled_at := Option.some 1700 } = 1 ∧
    recordFill "default"
        { order_id := "order-1", symbol := "AAPL", side := "buy",
          qty := mkRat 2 1, price := Option.some (mkRat 102 1),
          filled_at := Option.some 1700 }
        (recordFill "default"
          { order_id := "order-1", symbol := "AAPL", side := "buy",
            qty := mkRat 2 1, price := Option.some (mkRat 203 2),
            filled_at := Option.some 1700 } []) =
      recordFill "default"
        { order_id := "order-1", symbol := "AAPL", side := "buy",
          qty := mkRat 2 1, price := Option.some (mkRat 203 2),
          filled_at := Option.some 1700 } []
        ++ [fillToRecord "default"
            { order_id := "order-1", symbol := "AAPL", side := "buy",
              qty := mkRat 2 1, price := Option.some (mkRat 102 1),
              filled_at := Option.some 1700 }] := by
  refine ⟨?_, ?_, ?_⟩
  · exact (record_fill_dedup "default" "default" _ _ []).1 rfl rfl rfl rfl
  · exact (record_fill_dedup "default" "default"
      { order_id := "order-1", symbol := "AAPL", side := "buy",
        qty := mkRat 2 1, price := Option.some (mkRat 203 2),
        filled_at := Option.some 1700 }
      { order_id := "order-1", symbol := "AAPL", side := "buy",
        qty := mkRat 2 1, price := Option.some (mkRat 203 2),
        filled_at := Option.some 1700 } []).2.1 rfl
  · exact (record_fill_dedup "default" "default" _ _ []).2.2
      (Or.inr (Or.inr (Or.inl (by decide)))) rfl

theorem autoProtectContext_proceed (payload : Dict) (settings : Settings)
    (store : StoreModel) (orderId symbol : String)
    (hidt : (pyOr (payload.get "id") (payload.get "order_id")).truthy = true)
    (hid : (pyOr (payload.get "id") (payload.get "order_id")).pyStr = orderId)
    (hsym : asciiUpper (pyOr (payload.get "symbol") (PyVal.str "")).pyStr = symbol)
    (hsymne : symbol ≠ "")
    (hside : orderSideOf payload = "buy")
    (htype : settings.engine_auto_protect_order_types.contains (orderTypeOf payload) = true)
    (hbr : hasBracket payload = false)
    (hlf : store.hasLinkFails = false)
    (hnolink : store.state.links.any
      (fun l => l.1 == settings.engine_profile_id && l.2.1 == orderId) = false) :
    autoProtectContext payload settings store =
      Except.ok (Option.some orderId, Option.some symbol, Option.none) := by
  have hmem : orderTypeOf payload ∈ settings.engine_auto_protect_order_types := by
    simpa using htype
  simp [autoProtectContext, hasProtectionLink, hidt, hid, hsym, hsymne, hside,
    hmem, hbr, hlf, hnolink]

theorem autoProtectContext_linked (payload : Dict) (settings : Settings)
    (store : StoreModel) (orderId symbol : String)
    (hidt : (pyOr (payload.get "id") (payload.get "order_id")).truthy = true)
    (hid : (pyOr (payload.get "id") (payload.get "order_id")).pyStr = orderId)
    (hsym : asciiUpper (pyOr (payload.get "symbol") (PyVal.str "")).pyStr = symbol)
    (hsymne : symbol ≠ "")
    (hside : orderSideOf payload = "buy")
    (htype : settings.engine_auto_protect_order_types.contains (orderTypeOf payload) = true)
    (hbr : hasBracket payload = false)
    (hlf : store.hasLinkFails = false)
    (hlink : store.state.links.any
      (fun l => l.1 == settings.engine_profile_id && l.2.1 == orderId) = true) :
    autoProtectContext payload settings store =
      Except.ok (Option.some orderId, Option.some symbol,
        Option.some "already_linked") := by
  have hmem : orderTypeOf payload ∈ settings.engine_auto_protect_order_types := by
    simpa using htype
  simp [autoProtectContext, hasProtectionLink, hidt, hid, hsym, hsymne, hside,
    hmem, hbr, hlf, hlink]

/-- C2: for a fill whose order payload has side buy, an allow-listed order
type, no bracket/OCO/OTO legs and no existing protection link, and whose
symbol resolves to a positive live position quantity, `_auto_protect_on_fill`
submits exactly one trailing-stop SELL request and creates exactly one
ProtectionLink from the entry order id to the protection order's id; invoked
again with that link in place it submits zero further orders
(`src/apps/engine/streams.py` lines 102-172).  The configuration hypotheses
(auto-protect enabled, a valid configured sell TIF, a positive default trail
percent) and collaborator-success hypotheses state the configured context
the claim presupposes. -/
theorem auto_protect_fill_once (payload : Dict) (settings : Settings)
    (broker : BrokerModel) (store : StoreModel) (ps : List Position)
    (qty : Rat) (tifRaw : TimeInForce) (orderId symbol : String)
    (henabled : settings.engine_auto_protect_enabled = true)
    (hidt : (pyOr (payload.get "id") (payload.get "order_id")).truthy = true)
    (hid : (pyOr (payload.get "id") (payload.get "order_id")).pyStr = orderId)
    (hsym : asciiUpper (pyOr (payload.get "symbol") (PyVal.str "")).pyStr = symbol)
    (hsymne : symbol ≠ "")
    (hside : orderSideOf payload = "buy")
    (htype : settings.engine_auto_protect_order_types.contains (orderTypeOf payload) = true)
    (hbr : hasBracket payload = false)
    (hlf : store.hasLinkFails = false)
    (hup : store.upsertProtectOrderFails = false)
    (hcl : store.createLinkFails = false)
    (hnolink : store.state.links.any
      (fun l => l.1 == settings.engine_profile_id && l.2.1 == orderId) = false)
    (hpos : broker.positions = Except.ok ps)
    (hq : resolvePositionQty ps symbol = Option.some qty)
    (hqpos : 0 < qty)
    (htif : TimeInForce.ofValue settings.engine_trailing_sell_tif = Option.some tifRaw)
    (htrail : 0 < settings.engine_trailing_default_percent)
    (hsubmit : broker.submitFails = false) :
    ∃ req : TrailingStopOrderRequest,
      req.side = OrderSide.sell ∧ req.symbol = symbol ∧ req.qty = qty ∧
      autoProtectOnFill payload settings broker store =
        Except.ok ([req],
          { store.state with
            orders := store.state.orders ++
              [(settings.engine_profile_id, broker.submitResult req, "auto_protect")]
            links := store.state.links ++
              [(settings.engine_profile_id, orderId,
                (broker.submitResult req).order_id)] }) ∧
      autoProtectOnFill payload settings broker
        { store with state :=
          { store.state with
            orders := store.state.orders ++
              [(settings.engine_profile_id, broker.submitResult req, "auto_protect")]
            links := store.state.links ++
              [(settings.engine_profile_id, orderId,
                (broker.submitResult req).order_id)] } } =
        Except.ok ([],
          { store.state with
            orders := store.state.orders ++
              [(settings.engine_profile_id, broker.submitResult req, "auto_protect")]
            links := store.state.links ++
              [(settings.engine_profile_id, orderId,
                (broker.submitResult req).order_id)] }) := by
  refine ⟨{ symbol := symbol, side := OrderSide.sell, qty := qty,
            trail_percent := settings.engine_trailing_default_percent,
            time_in_force := coerceTifForFractional (DecVal.num qty) tifRaw "auto_protect",
            extended_hours := false,
            client_order_id :=
              Option.some ("auto-protect-" ++ String.mk (orderId.toList.take 20)) },
          rfl, rfl, rfl, ?_, ?_⟩
  · rw [autoProtectOnFill, autoProtectContext_proceed payload settings store orderId symbol
      hidt hid hsym hsymne hside htype hbr hlf hnolink]
    simp [henabled, hpos, hq, not_le.mpr hqpos, htif, htrail,
      TrailingStopOrderRequest.validated, hqpos, hsubmit, hup, hcl]
  · rw [autoProtectOnFill, autoProtectContext_linked payload settings
      { store with state :=
        { store.state with
          orders := store.state.orders ++
            [(settings.engine_profile_id,
              broker.submitResult
                { symbol := symbol, side := OrderSide.sell, qty := qty,
                  trail_percent := settings.engine_trailing_default_percent,
                  time_in_force :=
                    coerceTifForFractional (DecVal.num qty) tifRaw "auto_protect",
                  extended_hours := false,
                  client_order_id :=
                    Option.some ("auto-protect-" ++ String.mk (orderId.toList.take 20)) },
              "auto_protect")]
          links := store.state.links ++
            [(settings.engine_profile_id, orderId,
              (broker.submitResult
                { symbol := symbol, side := OrderSide.sell, qty := qty,
                  trail_percent := settings.engine_trailing_default_percent,
                  time_in_force :=
                    coerceTifForFractional (DecVal.num qty) tifRaw "auto_protect",
                  extended_hours := false,
                  client_order_id :=
                    Option.some ("auto-protect-" ++ String.mk (orderId.toList.take 20)) }).order_id)] } }
      orderId symbol hidt hid hsym hsymne hside htype hbr hlf
      (by simp [List.any_append])]
    simp [henabled]

/-- A fill-event order payload as the trade stream delivers it: a simple
filled buy market order for AAPL. -/
def fillOrderPayload : Dict :=
  [("id", PyVal.str "order-1"), ("symbol", PyVal.str "AAPL"),
   ("side", PyVal.str "OrderSide.BUY"), ("type", PyVal.str "market"),
   ("order_class", PyVal.str "simple"), ("filled_qty", PyVal.str "2"),
   ("filled_avg_price", PyVal.str "101.5"), ("status", PyVal.str "filled")]

/-- The order the broker model returns for a submitted trailing-stop
request. -/
def sampleSubmitOrder (r : TrailingStopOrderRequest) : Order :=
  { order_id := "protect-1", client_order_id := r.client_order_id,
    symbol := r.symbol, side := r.side.value, order_type := "trailing_stop",
    time_in_force :=
      Option.some (if r.time_in_force = TimeInForce.day then "day" else "gtc"),
    status := Option.some "accepted", qty := Option.some r.qty,
    trail_percent := Option.some r.trail_percent }

/-- Broker model holding a live 2-share AAPL position with successful
submission. -/
def liveBroker : BrokerModel :=
  { positions := Except.ok [{ symbol := "AAPL", quantity := mkRat 2 1 }],
    submitResult := sampleSubmitOrder }

/-- An empty, non-failing State Store model. -/
def emptyStore : StoreModel := { state := {} }

/-- Witness for C2: the concrete AAPL fill against the empty store submits
one SELL request, links `order-1` to `protect-1`, and a second invocation
with the link in place submits nothing. -/
theorem auto_protect_fill_once_witness :
    ∃ req : TrailingStopOrderRequest,
      req.side = OrderSide.sell ∧ req.symbol = "AAPL" ∧ req.qty = mkRat 2 1 ∧
      autoProtectOnFill fillOrderPayload gtcSettings liveBroker emptyStore =
        Except.ok ([req],
          { emptyStore.state with
            orders := emptyStore.state.orders ++
              [(gtcSettings.engine_profile_id, liveBroker.submitResult req, "auto_protect")]
            links := emptyStore.state.links ++
              [(gtcSettings.engine_profile_id, "order-1",
                (liveBroker.submitResult req).order_id)] }) ∧
      autoProtectOnFill fillOrderPayload gtcSettings liveBroker
        { emptyStore with state :=
          { emptyStore.state with
            orders := emptyStore.state.orders ++
              [(gtcSettings.engine_profile_id, liveBroker.submitResult req, "auto_protect")]
            links := emptyStore.state.links ++
              [(gtcSettings.engine_profile_id, "order-1",
                (liveBroker.submitResult req).order_id)] } } =
        Except.ok ([],
          { emptyStore.state with
            orders := emptyStore.state.orders ++
              [(gtcSettings.engine_profile_id, liveBroker.submitResult req, "auto_protect")]
            links := emptyStore.state.links ++
              [(gtcSettings.engine_profile_id, "order-1",
                (liveBroker.submitResult req).order_id)] }) :=
  auto_protect_fill_once fillOrderPayload gtcSettings liveBroker emptyStore
    [{ symbol := "AAPL", quantity := mkRat 2 1 }] (mkRat 2 1) TimeInForce.gtc
    "order-1" "AAPL" rfl (by decide) rfl rfl (by decide) (by decide) (by decide)
    (by decide) rfl rfl rfl rfl rfl (by decide) (by decide) rfl (by decide) rfl

theorem autoProtectContext_ok (payload : Dict) (settings : Settings) (store : StoreModel)
    (hlf : store.hasLinkFails = false) :
    ∃ t, autoProtectContext payload settings store = Except.ok t := by
  simp only [autoProtectContext, hasProtectionLink, hlf, Bool.false_eq_true,
    if_false]
  repeat' split
  all_goals first
  | exact ⟨_, rfl⟩
  | simp_all

theorem autoProtectOnFill_ok (payload : Dict) (settings : Settings)
    (broker : BrokerModel) (store : StoreModel) (ps : List Position)
    (hpos : broker.positions = Except.ok ps)
    (hlf : store.hasLinkFails = false)
    (hup : store.upsertProtectOrderFails = false)
    (hcl : store.createLinkFails = false)
    (htrail : 0 < settings.engine_trailing_default_percent) :
    ∃ r, autoProtectOnFill payload settings broker store = Except.ok r := by
  obtain ⟨⟨oid, sym, reason⟩, ht⟩ := autoProtectContext_ok payload settings store hlf
  simp only [autoProtectOnFill, ht, hpos]
  repeat' split
  any_goals exact ⟨_, rfl⟩
  all_goals simp_all [TrailingStopOrderRequest.validated, not_le]

/-- C4 (amended): exceptions inside the order-persistence block and inside
fill recording, and auto-protect submission failures, are contained by the
per-event handler — for every event, every persistence outcome and every
store/broker model whose auto-protect calls made outside a `try` succeed
(position query, link check, post-submit upsert and link creation, with a
positive configured trail percent and a parseable fill payload), the
handler returns normally, for all values of the caught failure flags
(`persistOutcome`, `upsertTradeUpdateOrderFails`, `recordFillFails`,
`submitFails`). -/
theorem process_trade_update_containment (ev : Option String) (payload : Dict)
    (settings : Settings) (broker : BrokerModel) (store : StoreModel)
    (persistOutcome : Except Unit Order) (ps : List Position)
    (hpos : broker.positions = Except.ok ps)
    (hlf : store.hasLinkFails = false)
    (hup : store.upsertProtectOrderFails = false)
    (hcl : store.createLinkFails = false)
    (htrail : 0 < settings.engine_trailing_default_percent)
    (hfill : ∃ v, buildFillFromOrder payload = Except.ok v) :
    ∃ r, processTradeUpdate ev (Option.some payload) settings broker store
      persistOutcome = Except.ok r := by
  obtain ⟨v, hv⟩ := hfill
  cases payload with
  | nil => exact ⟨_, rfl⟩
  | cons kv rest =>
    simp only [processTradeUpdate]
    by_cases hev : eventNameOf ev = "fill"
    · rw [if_pos hev, hv]
      exact autoProtectOnFill_ok _ _ _ _ ps hpos hlf hup hcl htrail
    · rw [if_neg hev]
      exact ⟨_, rfl⟩

/-- Witness for the amended C4: a concrete fill event handled while the
order-persistence block raises, fill recording raises and the auto-protect
submission fails still returns normally. -/
theorem process_trade_update_containment_witness :
    ∃ r, processTradeUpdate (Option.some "fill") (Option.some fillOrderPayload) gtcSettings
      { liveBroker with submitFails := true }
      { state := {}, recordFillFails := true }
      (Except.error ()) = Except.ok r :=
  process_trade_update_containment (Option.some "fill") fillOrderPayload gtcSettings
    { liveBroker with submitFails := true }
    { state := {}, recordFillFails := true }
    (Except.error ()) [{ symbol := "AAPL", quantity := mkRat 2 1 }]
    rfl rfl rfl rfl (by decide) ⟨_, rfl⟩

/-- C4 counterexample: for a concrete fill event whose payload satisfies
every auto-protect precondition, a State Store exception raised by the
protection-link check during auto-protect propagates out of
`process_trade_update` (and hence out of `on_trade_update`, which has no
handler of its own, `src/apps/engine/streams.py` lines 228-232) — the
per-event handler does not catch it, contradicting the claim that any
exception from State Store calls made during auto-protect is caught inside
the per-event handler. -/
theorem process_trade_update_store_error_escapes :
    processTradeUpdate (Option.some "fill") (Option.some fillOrderPayload) gtcSettings
      liveBroker { state := {}, hasLinkFails := true } (Except.error ()) =
      Except.error PyErr.storeError := by
  rfl

end TradeBot
